import Mathlib

/-!
Shallow embedding of the Spotify now-playing backend (src/server.js).

The service keeps an in-memory token pair (`accessToken`, `refreshToken`,
both JS strings, empty when unset), a persisted token file, and an
in-memory `Map` from CSRF state strings to `returnTo` strings.  Network
interaction (axios calls to Spotify) is modelled by an oracle script: a
list of scripted provider responses, consumed one per network request.
Each run also records the trace of requests issued, so "number of network
calls" and "which bearer token a request used" are observable.

JS strings that may be `undefined` are modelled as `Option String` where
the code distinguishes the cases (JSON fields, headers), and as plain
`String` with `""` for absent where the code only ever applies truthiness
(`!accessToken`, `!refreshToken`), since `undefined` and `""` are both
falsy and are treated identically by every such check in the source.
-/

/-- In-memory token pair: the globals `accessToken` and `refreshToken`
(src/server.js lines 19-20), `""` when unset. -/
structure TokenPair where
  accessToken : String
  refreshToken : String
deriving DecidableEq, Repr

/-- Content of one write of the token file: `JSON.stringify({accessToken,
refreshToken})` (line 43).  Fields are `Option String` because `loadTokens`
guards each field with `|| ""` when reading it back (lines 30-31). -/
structure FileDoc where
  accessToken : Option String
  refreshToken : Option String
deriving DecidableEq, Repr

/-- Process state relevant to the token lifecycle: the in-memory pair and
the sequence of token-file writes performed so far (most recent last).
Keeping the whole write list makes "persisted exactly once" provable. -/
structure ServerState where
  tokens : TokenPair
  writes : List FileDoc
deriving DecidableEq, Repr

/-- The function `saveTokens()` (lines 39-49): serialises the current
in-memory pair, both fields always present, and writes the file (modelled
as appending to the write log; the file's content is the last write). -/
def saveTokens (st : ServerState) : ServerState :=
  { st with
    writes := st.writes ++ [⟨some st.tokens.accessToken, some st.tokens.refreshToken⟩] }

/-- Current content of the token file: the most recent write, `none` when
never written. -/
def currentFile (st : ServerState) : Option FileDoc :=
  st.writes.getLast?

/-- The function `loadTokens()` (lines 26-36): on a readable file, sets
`accessToken = tokens.accessToken || ""` and likewise for the refresh
token (`x || ""` collapses both a missing field and `""` to `""`, which is
`Option.getD`); on read/parse failure the in-memory tokens are left as
they are (`cur`). -/
def loadTokens (file : Option FileDoc) (cur : TokenPair) : TokenPair :=
  match file with
  | none => cur
  | some d => ⟨d.accessToken.getD "", d.refreshToken.getD ""⟩

/-! ### StateRegistry: the `stateStore` Map (line 23) -/

/-- The CSRF state store, a JS `Map` from state strings to `returnTo`
strings, modelled as an association list with unique keys. -/
def StateMap := List (String × String)
deriving DecidableEq, Repr

/-- JS `Map.has` (line 108). -/
def mapHas (m : StateMap) (k : String) : Bool :=
  m.any (fun p => p.1 == k)

/-- JS `Map.get` (line 113): `none` plays the role of `undefined`. -/
def mapGet (m : StateMap) (k : String) : Option String :=
  (m.find? (fun p => p.1 == k)).map (fun p => p.2)

/-- JS `Map.delete` (line 114). -/
def mapDelete (m : StateMap) (k : String) : StateMap :=
  m.filter (fun p => !(p.1 == k))

/-- JS `Map.set` (line 82): inserts or replaces the binding for `k`. -/
def mapSet (m : StateMap) (k v : String) : StateMap :=
  (k, v) :: mapDelete m k

/-- Outcome of the `/callback` state validation. -/
inductive ConsumeResult where
  | invalid
  | valid (returnTo : String)
deriving DecidableEq, Repr

/-- State-validation part of the `/callback` handler (lines 100-114): an
empty/missing `state` query parameter is rejected by the `!state` guard
(line 103, missing and `""` are both falsy, modelled as `""`); a state not
in the store is rejected (line 108); otherwise the entry is read with the
`|| "/"` fallback (line 113, `""` is falsy) and removed (line 114). -/
def consumeState (m : StateMap) (s : String) : ConsumeResult × StateMap :=
  if s = "" then (.invalid, m)
  else if mapHas m s then
    let r := match mapGet m s with
      | none => "/"
      | some v => if v = "" then "/" else v
    (.valid r, mapDelete m s)
  else (.invalid, m)

/-- State-creation part of the `/login` handler (lines 80-82): the random
state (an oracle input here, `crypto.randomBytes(16).toString("hex")` in
the source) is bound to `returnTo` in the store. -/
def createState (m : StateMap) (s returnTo : String) : StateMap :=
  mapSet m s returnTo

/-! ### Network oracle and the token-refresh / now-playing core -/

/-- One scripted provider response, consumed by one network call.
Axios resolves only 2xx responses (`fetchOk`, and for the token endpoint
`refreshOk` carrying the parsed JSON body) and rejects the rest: a
rejection with an HTTP response is `fetchErr` (carrying the status and the
`retry-after` header, `none` when absent) or `refreshErr`; a rejection
with no response at all (network failure) is `fetchNetErr`.  The track
payload is opaque to the server and modelled as a string. -/
inductive NetEvent where
  | fetchOk (status : Nat) (data : String)
  | fetchErr (status : Nat) (retryAfter : Option String)
  | fetchNetErr
  | refreshOk (accessTok : String) (refreshTok : Option String)
  | refreshErr
deriving DecidableEq, Repr

/-- A network request issued by the server, with the credential it
carried: the now-playing GET sends `Bearer ${accessToken}` (line 233), the
token-endpoint POST sends the current refresh token in its body
(line 182). -/
inductive NetRequest where
  | nowPlaying (bearerToken : String)
  | tokenRefresh (refreshTok : String)
deriving DecidableEq, Repr

/-- Result of `refreshAccessToken()` (lines 171-210).  The source returns
`false` both on the no-refresh-token fast path and on a failed request,
distinguished only by the log message; the model keeps the branches
distinct.  `stuck` is a model artifact: the oracle script did not contain
a token-endpoint response for the request. -/
inductive RefreshOutcome where
  | noToken
  | ok
  | failed
  | stuck
deriving DecidableEq, Repr

/-- JS truthiness update of line 196-198: `if (response.data.refresh_token)
refreshToken = response.data.refresh_token` — a missing or empty new
refresh token keeps the old one. -/
def jsTruthyOr (newTok : Option String) (old : String) : String :=
  match newTok with
  | none => old
  | some s => if s = "" then old else s

/-- The function `refreshAccessToken()` (lines 171-210): fails fast when
no refresh token is stored (lines 172-175, no network call, no request in
the trace); otherwise issues the token-endpoint request.  On a 2xx
response it sets `accessToken` to the new one (line 194), replaces the
refresh token only when a truthy one was returned (lines 196-198), and
saves once (line 200).  On a rejected request the `catch` returns `false`
with no mutation (lines 203-209).  Returns (outcome, state, remaining
script, requests issued). -/
def refreshAccessToken (st : ServerState) (script : List NetEvent) :
    RefreshOutcome × ServerState × List NetEvent × List NetRequest :=
  if st.tokens.refreshToken = "" then (.noToken, st, script, [])
  else
    match script with
    | .refreshOk a r :: rest =>
        let st2 := saveTokens { st with tokens := ⟨a, jsTruthyOr r st.tokens.refreshToken⟩ }
        (.ok, st2, rest, [.tokenRefresh st.tokens.refreshToken])
    | .refreshErr :: rest => (.failed, st, rest, [.tokenRefresh st.tokens.refreshToken])
    | _ => (.stuck, st, script, [.tokenRefresh st.tokens.refreshToken])

/-- Decimal part of JS `parseInt` (line 263): skip leading whitespace,
optional sign, then the longest leading digit run; `none` for `NaN` (no
digits, or a missing header since `parseInt(undefined)` is `NaN`). -/
def parseIntJs (s : Option String) : Option Int :=
  match s with
  | none => none
  | some str =>
      let cs := str.toList.dropWhile (fun c => c = ' ' ∨ c = '\t' ∨ c = '\n' ∨ c = '\r')
      let signAndRest : Int × List Char :=
        match cs with
        | '-' :: rest => (-1, rest)
        | '+' :: rest => (1, rest)
        | _ => (1, cs)
      let ds := signAndRest.2.takeWhile Char.isDigit
      if ds = [] then none
      else some (signAndRest.1 * (ds.foldl (fun acc c => acc * 10 + (c.toNat - 48)) 0 : Nat))

/-- JS `parseInt(h) || 1` (line 263): `NaN` and `0` are falsy, so both
fall back to `1`. -/
def jsOrOne (n : Option Int) : Int :=
  match n with
  | none => 1
  | some k => if k = 0 then 1 else k

/-- Caller-visible result of the `/current` handler. -/
inductive FetchResult where
  | ok (status : Nat) (data : String)
  | notPlaying
  | unauthorized
  | failedFetch
  | noAuth
  | stuck
deriving DecidableEq, Repr

/-- HTTP status the route sends for each result: `res.json({playing:
false,...})` is 200 (line 240), `res.status(response.status)` echoes the
upstream 2xx status (line 246), refresh failure is 401 (line 258), other
failures 500 (line 271), and the missing-access-token guard 401
(line 224). -/
def resultHttpStatus : FetchResult → Option Nat
  | .ok s _ => some s
  | .notPlaying => some 200
  | .unauthorized => some 401
  | .failedFetch => some 500
  | .noAuth => some 401
  | .stuck => none

/-- Full outcome of a `/current` run: the response sent, the final server
state, the unconsumed oracle script, the total milliseconds spent in
`delay`, and the chronological request trace. -/
structure FetchOutcome where
  result : FetchResult
  state : ServerState
  remaining : List NetEvent
  delayMs : Int
  trace : List NetRequest
deriving DecidableEq, Repr

/-- Fuelled version of `fetchCurrent()` (lines 227-273).  Each iteration
issues the now-playing GET with the current access token and consumes the
next scripted response: a 204 maps to the not-playing reply (lines
239-244), another 2xx is echoed (line 246); a rejected request with status
401 while a refresh token is stored runs `refreshAccessToken` and, on
success, recurses (retry, line 255), on failure replies 401 (lines
257-259); status 429 parses `retry-after` with default 1, delays that many
seconds, and recurses (lines 262-267); anything else replies 500 (lines
270-271).  The fuel only guards Lean termination: each recursion consumes
at least one scripted event, so `script.length + 1` never runs out. -/
def fetchCurrentFuel (st : ServerState) (script : List NetEvent) (delayMs : Int) :
    Nat → FetchOutcome
  | 0 => ⟨.stuck, st, script, delayMs, []⟩
  | fuel + 1 =>
    let req := NetRequest.nowPlaying st.tokens.accessToken
    match script with
    | [] => ⟨.stuck, st, [], delayMs, [req]⟩
    | .fetchOk status data :: rest =>
        if status = 204 then ⟨.notPlaying, st, rest, delayMs, [req]⟩
        else ⟨.ok status data, st, rest, delayMs, [req]⟩
    | .fetchErr status retryAfter :: rest =>
        if status = 401 ∧ st.tokens.refreshToken ≠ "" then
          match refreshAccessToken st rest with
          | (.ok, st2, rest2, rtrace) =>
              let out := fetchCurrentFuel st2 rest2 delayMs fuel
              { out with trace := req :: rtrace ++ out.trace }
          | (.failed, st2, rest2, rtrace) =>
              ⟨.unauthorized, st2, rest2, delayMs, req :: rtrace⟩
          | (_, st2, rest2, rtrace) =>
              ⟨.stuck, st2, rest2, delayMs, req :: rtrace⟩
        else if status = 429 then
          let ra := jsOrOne (parseIntJs retryAfter)
          let out := fetchCurrentFuel st rest (delayMs + ra * 1000) fuel
          { out with trace := req :: out.trace }
        else ⟨.failedFetch, st, rest, delayMs, [req]⟩
    | .fetchNetErr :: rest => ⟨.failedFetch, st, rest, delayMs, [req]⟩
    | _ :: _ => ⟨.stuck, st, script, delayMs, [req]⟩

/-- The inner `fetchCurrent()` closure of the `/current` route (lines
227-273), run against an oracle script. -/
def fetchCurrent (st : ServerState) (script : List NetEvent) (delayMs : Int) : FetchOutcome :=
  fetchCurrentFuel st script delayMs (script.length + 1)

/-- The `/current` route handler (lines 222-276): replies 401 with no
network call when no access token is stored (lines 223-225), otherwise
runs `fetchCurrent`. -/
def currentHandler (st : ServerState) (script : List NetEvent) : FetchOutcome :=
  if st.tokens.accessToken = "" then ⟨.noAuth, st, script, 0, []⟩
  else fetchCurrent st script 0

/-! ### Token-endpoint request construction (code exchange and refresh) -/

/-- UTF-8 encoding of one code point, as `Buffer.from(string)` performs it
(Node buffers are UTF-8 by default). -/
def utf8Bytes (c : Char) : List Nat :=
  let n := c.toNat
  if n < 128 then [n]
  else if n < 2048 then [192 + n / 64, 128 + n % 64]
  else if n < 65536 then [224 + n / 4096, 128 + n / 64 % 64, 128 + n % 64]
  else [240 + n / 262144, 128 + n / 4096 % 64, 128 + n / 64 % 64, 128 + n % 64]

/-- The 64 base64 digits, in order. -/
def base64Alphabet : List Char :=
  "ABCDEFGHIJKLMNOPQRSTUVWXYZabcdefghijklmnopqrstuvwxyz0123456789+/".toList

/-- Digit `n` (0-63) of the base64 alphabet. -/
def base64Digit (n : Nat) : Char :=
  base64Alphabet.getD n 'A'

/-- Standard base64 of a byte list, three bytes per 4-character group,
`=`-padded. -/
def base64Chunks : List Nat → String
  | [] => ""
  | [a] =>
      let n := a * 65536
      String.mk [base64Digit (n / 262144), base64Digit (n / 4096 % 64)] ++ "=="
  | [a, b] =>
      let n := a * 65536 + b * 256
      String.mk [base64Digit (n / 262144), base64Digit (n / 4096 % 64),
        base64Digit (n / 64 % 64)] ++ "="
  | a :: b :: c :: rest =>
      let n := a * 65536 + b * 256 + c
      String.mk [base64Digit (n / 262144), base64Digit (n / 4096 % 64),
        base64Digit (n / 64 % 64), base64Digit (n % 64)] ++ base64Chunks rest

/-- Node's `Buffer.from(s).toString("base64")` (lines 129 and 188). -/
def base64Encode (s : String) : String :=
  base64Chunks ((s.toList.map utf8Bytes).flatten)

/-- An HTTP POST to the provider token endpoint, as the source builds it:
URL, `Authorization` header, `Content-Type` header, and the
`querystring.stringify`-ed body given as its key-value pairs. -/
structure TokenEndpointRequest where
  url : String
  authorizationHeader : String
  contentType : String
  bodyParams : List (String × String)
deriving DecidableEq, Repr

/-- The `Authorization` header of both token-endpoint calls (lines 127-129
and 186-188): `"Basic " + Buffer.from(CLIENT_ID + ":" + CLIENT_SECRET)
.toString("base64")`. -/
def basicAuthHeader (clientId clientSecret : String) : String :=
  "Basic " ++ base64Encode (clientId ++ ":" ++ clientSecret)

/-- The code-exchange request of the `/callback` handler (lines 118-133):
body `grant_type=authorization_code&code=...&redirect_uri=...`,
credentials only in the Basic `Authorization` header. -/
def exchangeCodeRequest (clientId clientSecret code redirectUri : String) :
    TokenEndpointRequest :=
  { url := "https://accounts.spotify.com/api/token"
    authorizationHeader := basicAuthHeader clientId clientSecret
    contentType := "application/x-www-form-urlencoded"
    bodyParams := [("grant_type", "authorization_code"), ("code", code),
      ("redirect_uri", redirectUri)] }

/-- The refresh request of `refreshAccessToken()` (lines 178-192): body
`grant_type=refresh_token&refresh_token=...`, credentials only in the
Basic `Authorization` header. -/
def refreshTokenRequest (clientId clientSecret refreshTok : String) :
    TokenEndpointRequest :=
  { url := "https://accounts.spotify.com/api/token"
    authorizationHeader := basicAuthHeader clientId clientSecret
    contentType := "application/x-www-form-urlencoded"
    bodyParams := [("grant_type", "refresh_token"), ("refresh_token", refreshTok)] }

/-- Body of a successful code-exchange response; a valid
authorization-code grant carries both tokens, which the handler stores
unconditionally (lines 136-137). -/
structure CodeTokenResponse where
  access_token : String
  refresh_token : String
deriving DecidableEq, Repr

/-- Token-storing tail of the `/callback` success path (lines 135-138):
overwrite the in-memory pair with the exchanged tokens, then
`saveTokens()`. -/
def exchangeCodeApply (st : ServerState) (resp : CodeTokenResponse) : ServerState :=
  saveTokens { st with tokens := ⟨resp.access_token, resp.refresh_token⟩ }

/-! ### Helper lemmas -/

theorem mapHas_mapDelete (m : StateMap) (k : String) :
    mapHas (mapDelete m k) k = false := by
  simp only [mapHas, mapDelete, List.any_eq_false]
  intro p hp
  have h := (List.mem_filter.mp hp).2
  simp at h
  simp [h]

theorem mapGet_mapSet_self (m : StateMap) (k v : String) :
    mapGet (mapSet m k v) k = some v := by
  simp [mapGet, mapSet, List.find?]

theorem mapHas_mapSet_self (m : StateMap) (k v : String) :
    mapHas (mapSet m k v) k = true := by
  simp [mapHas, mapSet, List.any_cons]

theorem mapDelete_mapSet_self (m : StateMap) (k v : String) :
    mapDelete (mapSet m k v) k = mapDelete m k := by
  simp only [mapDelete, mapSet, List.filter]
  simp [List.filter_filter]

theorem jsTruthyOr_ne_empty (r : Option String) (old : String) (h : old ≠ "") :
    jsTruthyOr r old ≠ "" := by
  cases r with
  | none => simpa [jsTruthyOr] using h
  | some s =>
      by_cases hs : s = "" <;> simp [jsTruthyOr, hs, h]

/-- Sanity check of the base64 model against a reference value computed
with an independent encoder. -/
theorem base64Encode_reference_value :
    base64Encode "abc:xyz" = "YWJjOnh5eg==" ∧
    base64Encode "myid:mysecret" = "bXlpZDpteXNlY3JldA==" := by
  exact ⟨rfl, rfl⟩

/-! ### Claim theorems -/

/-- C1, counterexample.  The claim says that after a successful refresh
the request is retried exactly once and a second 401 yields `Unauthorized`
with no further retries.  On the script "401, refresh ok, 401, refresh ok,
200" the code instead refreshes a second time and issues a third
now-playing attempt, ending in a 200 reply after five network calls, where
the claim predicts an `Unauthorized` reply after at most three. -/
theorem C1_counterexample :
    (fetchCurrent ⟨⟨"tokA", "tokR"⟩, []⟩
      [.fetchErr 401 none, .refreshOk "tokA2" none, .fetchErr 401 none,
       .refreshOk "tokA3" none, .fetchOk 200 "track"] 0).result = .ok 200 "track" ∧
    (fetchCurrent ⟨⟨"tokA", "tokR"⟩, []⟩
      [.fetchErr 401 none, .refreshOk "tokA2" none, .fetchErr 401 none,
       .refreshOk "tokA3" none, .fetchOk 200 "track"] 0).trace =
      [.nowPlaying "tokA", .tokenRefresh "tokR", .nowPlaying "tokA2",
       .tokenRefresh "tokR", .nowPlaying "tokA3"] := by
  exact ⟨rfl, rfl⟩

/-- C1, amended.  With a refresh token stored, a 401 on the now-playing
request triggers one refresh; if the refresh fails the handler replies
`Unauthorized` with no further network attempts (two consecutive 401s cost
exactly two network calls); if the refresh succeeds the request is retried
once with the new access token; but a 401 on the retry is handled by the
same rule again — another refresh is attempted rather than an immediate
`Unauthorized` (the code imposes no cap on refresh-retry cycles). -/
theorem C1_amended (st : ServerState) (ra ra2 : Option String) (a : String)
    (r : Option String) (data : String) (rest : List NetEvent)
    (hR : st.tokens.refreshToken ≠ "") :
    fetchCurrent st (.fetchErr 401 ra :: .refreshErr :: rest) 0 =
      ⟨.unauthorized, st, rest, 0,
        [.nowPlaying st.tokens.accessToken, .tokenRefresh st.tokens.refreshToken]⟩ ∧
    fetchCurrent st (.fetchErr 401 ra :: .refreshOk a r :: .fetchOk 200 data :: rest) 0 =
      ⟨.ok 200 data,
        saveTokens { st with tokens := ⟨a, jsTruthyOr r st.tokens.refreshToken⟩ }, rest, 0,
        [.nowPlaying st.tokens.accessToken, .tokenRefresh st.tokens.refreshToken,
         .nowPlaying a]⟩ ∧
    fetchCurrent st (.fetchErr 401 ra :: .refreshOk a r :: .fetchErr 401 ra2 ::
        .refreshErr :: rest) 0 =
      ⟨.unauthorized,
        saveTokens { st with tokens := ⟨a, jsTruthyOr r st.tokens.refreshToken⟩ }, rest, 0,
        [.nowPlaying st.tokens.accessToken, .tokenRefresh st.tokens.refreshToken,
         .nowPlaying a, .tokenRefresh (jsTruthyOr r st.tokens.refreshToken)]⟩ := by
  have hR2 := jsTruthyOr_ne_empty r st.tokens.refreshToken hR
  refine ⟨?_, ?_, ?_⟩ <;>
    simp [fetchCurrent, fetchCurrentFuel, refreshAccessToken, hR, hR2, saveTokens]

/-- C1, witness for the amended theorem at concrete inputs. -/
theorem C1_amended_witness :
    fetchCurrent ⟨⟨"A", "R"⟩, []⟩ [.fetchErr 401 none, .refreshErr] 0 =
      ⟨.unauthorized, ⟨⟨"A", "R"⟩, []⟩, [], 0, [.nowPlaying "A", .tokenRefresh "R"]⟩ ∧
    fetchCurrent ⟨⟨"A", "R"⟩, []⟩
        [.fetchErr 401 none, .refreshOk "A2" none, .fetchOk 200 "track"] 0 =
      ⟨.ok 200 "track", ⟨⟨"A2", "R"⟩, [⟨some "A2", some "R"⟩]⟩, [], 0,
        [.nowPlaying "A", .tokenRefresh "R", .nowPlaying "A2"]⟩ ∧
    fetchCurrent ⟨⟨"A", "R"⟩, []⟩
        [.fetchErr 401 none, .refreshOk "A2" none, .fetchErr 401 none, .refreshErr] 0 =
      ⟨.unauthorized, ⟨⟨"A2", "R"⟩, [⟨some "A2", some "R"⟩]⟩, [], 0,
        [.nowPlaying "A", .tokenRefresh "R", .nowPlaying "A2", .tokenRefresh "R"]⟩ := by
  simpa using C1_amended ⟨⟨"A", "R"⟩, []⟩ none none "A2" none "track" [] (by decide)

/-- C2: a state never produced (or already consumed) is rejected as
invalid; a created state is consumed exactly once, returning its
`returnTo` (with the `|| "/"` fallback of the source) and removing the
entry, so a second consume of the same state is invalid; an empty/missing
state is rejected. -/
theorem C2_state_single_use (m : StateMap) (s r : String) (hs : s ≠ "")
    (hnew : mapHas m s = false) :
    consumeState m s = (.invalid, m) ∧
    consumeState (createState m s r) s =
      (.valid (if r = "" then "/" else r), mapDelete m s) ∧
    consumeState (consumeState (createState m s r) s).2 s = (.invalid, mapDelete m s) ∧
    consumeState m "" = (.invalid, m) := by
  have h1 : consumeState m s = (.invalid, m) := by
    simp [consumeState, hs, hnew]
  have h2 : consumeState (createState m s r) s =
      (.valid (if r = "" then "/" else r), mapDelete m s) := by
    simp [consumeState, hs, createState, mapHas_mapSet_self, mapGet_mapSet_self,
      mapDelete_mapSet_self]
  have h3 : consumeState (mapDelete m s) s = (.invalid, mapDelete m s) := by
    simp [consumeState, hs, mapHas_mapDelete]
  refine ⟨h1, h2, ?_, by simp [consumeState]⟩
  rw [h2]
  exact h3

/-- C2, witness: the concrete `create("/dashboard")` / double-consume
scenario of the claim. -/
theorem C2_witness :
    consumeState [] "S" = (.invalid, []) ∧
    consumeState (createState [] "S" "/dashboard") "S" = (.valid "/dashboard", []) ∧
    consumeState (consumeState (createState [] "S" "/dashboard") "S").2 "S" =
      (.invalid, []) ∧
    consumeState [] "" = (.invalid, []) := by
  simpa using C2_state_single_use [] "S" "/dashboard" (by decide) (by decide)

/-- C3: a successful code exchange stores both returned tokens in the
in-memory pair, persists them (the token file now holds exactly that
pair), and loading the file back yields the same pair. -/
theorem C3_exchange_round_trip (st : ServerState) (resp : CodeTokenResponse)
    (cur : TokenPair) (ha : resp.access_token ≠ "") (hr : resp.refresh_token ≠ "") :
    (exchangeCodeApply st resp).tokens = ⟨resp.access_token, resp.refresh_token⟩ ∧
    (exchangeCodeApply st resp).tokens.accessToken ≠ "" ∧
    (exchangeCodeApply st resp).tokens.refreshToken ≠ "" ∧
    currentFile (exchangeCodeApply st resp) =
      some ⟨some resp.access_token, some resp.refresh_token⟩ ∧
    loadTokens (currentFile (exchangeCodeApply st resp)) cur =
      (exchangeCodeApply st resp).tokens := by
  have hfile : currentFile (exchangeCodeApply st resp) =
      some ⟨some resp.access_token, some resp.refresh_token⟩ := by
    simp [currentFile, exchangeCodeApply, saveTokens, List.getLast?_concat]
  refine ⟨rfl, ha, hr, hfile, ?_⟩
  rw [hfile]
  simp [loadTokens, exchangeCodeApply, saveTokens]

/-- C3, witness at a concrete exchange. -/
theorem C3_witness :
    (exchangeCodeApply ⟨⟨"", ""⟩, []⟩ ⟨"AT", "RT"⟩).tokens = ⟨"AT", "RT"⟩ ∧
    (exchangeCodeApply ⟨⟨"", ""⟩, []⟩ ⟨"AT", "RT"⟩).tokens.accessToken ≠ "" ∧
    (exchangeCodeApply ⟨⟨"", ""⟩, []⟩ ⟨"AT", "RT"⟩).tokens.refreshToken ≠ "" ∧
    currentFile (exchangeCodeApply ⟨⟨"", ""⟩, []⟩ ⟨"AT", "RT"⟩) =
      some ⟨some "AT", some "RT"⟩ ∧
    loadTokens (currentFile (exchangeCodeApply ⟨⟨"", ""⟩, []⟩ ⟨"AT", "RT"⟩)) ⟨"x", "y"⟩ =
      (exchangeCodeApply ⟨⟨"", ""⟩, []⟩ ⟨"AT", "RT"⟩).tokens := by
  exact C3_exchange_round_trip ⟨⟨"", ""⟩, []⟩ ⟨"AT", "RT"⟩ ⟨"x", "y"⟩ (by decide) (by decide)

/-- C4: with an empty stored refresh token, `refreshAccessToken` takes the
distinct fail-fast branch, touches nothing, consumes no scripted response
and issues no request. -/
theorem C4_refresh_no_token_fast_fail (st : ServerState) (script : List NetEvent)
    (h : st.tokens.refreshToken = "") :
    refreshAccessToken st script = (.noToken, st, script, []) := by
  simp [refreshAccessToken, h]

/-- C4, witness at a concrete state. -/
theorem C4_witness :
    refreshAccessToken ⟨⟨"A", ""⟩, []⟩ [.refreshOk "newA" none] =
      (.noToken, ⟨⟨"A", ""⟩, []⟩, [.refreshOk "newA" none], []) := by
  exact C4_refresh_no_token_fast_fail ⟨⟨"A", ""⟩, []⟩ [.refreshOk "newA" none] rfl

/-- C5: a successful refresh replaces the access token with the newly
issued one; when the provider omits a new refresh token the old one is
retained, when it sends one it replaces the old one; in both cases the
pair is persisted by exactly one write. -/
theorem C5_refresh_success (st : ServerState) (rest : List NetEvent) (a s : String)
    (hR : st.tokens.refreshToken ≠ "") (hs : s ≠ "") :
    refreshAccessToken st (.refreshOk a none :: rest) =
      (.ok, ⟨⟨a, st.tokens.refreshToken⟩,
        st.writes ++ [⟨some a, some st.tokens.refreshToken⟩]⟩, rest,
        [.tokenRefresh st.tokens.refreshToken]) ∧
    refreshAccessToken st (.refreshOk a (some s) :: rest) =
      (.ok, ⟨⟨a, s⟩, st.writes ++ [⟨some a, some s⟩]⟩, rest,
        [.tokenRefresh st.tokens.refreshToken]) := by
  constructor <;> simp [refreshAccessToken, hR, jsTruthyOr, saveTokens, hs]

/-- C5, witness at a concrete state and responses. -/
theorem C5_witness :
    refreshAccessToken ⟨⟨"A", "R"⟩, []⟩ [.refreshOk "A2" none] =
      (.ok, ⟨⟨"A2", "R"⟩, [⟨some "A2", some "R"⟩]⟩, [], [.tokenRefresh "R"]) ∧
    refreshAccessToken ⟨⟨"A", "R"⟩, []⟩ [.refreshOk "A2" (some "R2")] =
      (.ok, ⟨⟨"A2", "R2"⟩, [⟨some "A2", some "R2"⟩]⟩, [], [.tokenRefresh "R"]) := by
  exact C5_refresh_success ⟨⟨"A", "R"⟩, []⟩ [] "A2" "R2" (by decide) (by decide)

/-- C6: both token-endpoint requests carry the client credentials only in
the Basic `Authorization` header; their bodies hold exactly the grant
parameters, with no `client_id` or `client_secret` field. -/
theorem C6_basic_auth_only (clientId clientSecret code redirectUri refreshTok : String) :
    (exchangeCodeRequest clientId clientSecret code redirectUri).authorizationHeader =
      "Basic " ++ base64Encode (clientId ++ ":" ++ clientSecret) ∧
    (exchangeCodeRequest clientId clientSecret code redirectUri).bodyParams.map Prod.fst =
      ["grant_type", "code", "redirect_uri"] ∧
    ((exchangeCodeRequest clientId clientSecret code redirectUri).bodyParams.all
      (fun p => !(p.1 == "client_id") && !(p.1 == "client_secret"))) = true ∧
    (refreshTokenRequest clientId clientSecret refreshTok).authorizationHeader =
      "Basic " ++ base64Encode (clientId ++ ":" ++ clientSecret) ∧
    (refreshTokenRequest clientId clientSecret refreshTok).bodyParams.map Prod.fst =
      ["grant_type", "refresh_token"] ∧
    ((refreshTokenRequest clientId clientSecret refreshTok).bodyParams.all
      (fun p => !(p.1 == "client_id") && !(p.1 == "client_secret"))) = true := by
  exact ⟨rfl, rfl, rfl, rfl, rfl, rfl⟩

/-- C7, counterexample.  The header value "0" parses to 0 seconds, yet the
code suspends 1000 ms (the `|| 1` fallback also swallows a parsed 0), so
"suspends for that duration" fails at a parseable hint. -/
theorem C7_counterexample :
    parseIntJs (some "0") = some 0 ∧
    (fetchCurrent ⟨⟨"tokA", "tokR"⟩, []⟩
      [.fetchErr 429 (some "0"), .fetchOk 200 "track"] 0).delayMs = 1000 ∧
    (fetchCurrent ⟨⟨"tokA", "tokR"⟩, []⟩
      [.fetchErr 429 (some "0"), .fetchOk 200 "track"] 0).result = .ok 200 "track" := by
  exact ⟨rfl, rfl, rfl⟩

/-- C7, amended.  On a 429 the code suspends `retry-after` seconds when
the header parses to a nonzero integer, and 1 second when the header is
absent, unparseable, or parses to 0; then it retries once, so a 429
followed by a 200 succeeds with exactly one retry (the `retry-after: 2`
scenario suspends 2000 ms). -/
theorem C7_amended (st : ServerState) (data : String) (rest : List NetEvent)
    (hdrBad hdrNum : String) (n : Int)
    (hu : parseIntJs (some hdrBad) = none)
    (hn : parseIntJs (some hdrNum) = some n) (hnz : n ≠ 0) :
    fetchCurrent st (.fetchErr 429 (some hdrNum) :: .fetchOk 200 data :: rest) 0 =
      ⟨.ok 200 data, st, rest, n * 1000,
        [.nowPlaying st.tokens.accessToken, .nowPlaying st.tokens.accessToken]⟩ ∧
    fetchCurrent st (.fetchErr 429 none :: .fetchOk 200 data :: rest) 0 =
      ⟨.ok 200 data, st, rest, 1000,
        [.nowPlaying st.tokens.accessToken, .nowPlaying st.tokens.accessToken]⟩ ∧
    fetchCurrent st (.fetchErr 429 (some hdrBad) :: .fetchOk 200 data :: rest) 0 =
      ⟨.ok 200 data, st, rest, 1000,
        [.nowPlaying st.tokens.accessToken, .nowPlaying st.tokens.accessToken]⟩ ∧
    fetchCurrent st (.fetchErr 429 (some "0") :: .fetchOk 200 data :: rest) 0 =
      ⟨.ok 200 data, st, rest, 1000,
        [.nowPlaying st.tokens.accessToken, .nowPlaying st.tokens.accessToken]⟩ := by
  have h0 : parseIntJs (some "0") = some 0 := rfl
  have hnone : parseIntJs none = none := rfl
  refine ⟨?_, ?_, ?_, ?_⟩
  · simp [fetchCurrent, fetchCurrentFuel, jsOrOne, hn, hnz]
  · simp [fetchCurrent, fetchCurrentFuel, jsOrOne, hnone]
  · simp [fetchCurrent, fetchCurrentFuel, jsOrOne, hu]
  · simp [fetchCurrent, fetchCurrentFuel, jsOrOne, h0]

/-- C7, witness: the `retry-after: 2` scenario plus the absent,
unparseable and zero headers at concrete inputs. -/
theorem C7_amended_witness :
    fetchCurrent ⟨⟨"A", "R"⟩, []⟩ [.fetchErr 429 (some "2"), .fetchOk 200 "track"] 0 =
      ⟨.ok 200 "track", ⟨⟨"A", "R"⟩, []⟩, [], 2000, [.nowPlaying "A", .nowPlaying "A"]⟩ ∧
    fetchCurrent ⟨⟨"A", "R"⟩, []⟩ [.fetchErr 429 none, .fetchOk 200 "track"] 0 =
      ⟨.ok 200 "track", ⟨⟨"A", "R"⟩, []⟩, [], 1000, [.nowPlaying "A", .nowPlaying "A"]⟩ ∧
    fetchCurrent ⟨⟨"A", "R"⟩, []⟩ [.fetchErr 429 (some "zz"), .fetchOk 200 "track"] 0 =
      ⟨.ok 200 "track", ⟨⟨"A", "R"⟩, []⟩, [], 1000, [.nowPlaying "A", .nowPlaying "A"]⟩ ∧
    fetchCurrent ⟨⟨"A", "R"⟩, []⟩ [.fetchErr 429 (some "0"), .fetchOk 200 "track"] 0 =
      ⟨.ok 200 "track", ⟨⟨"A", "R"⟩, []⟩, [], 1000, [.nowPlaying "A", .nowPlaying "A"]⟩ := by
  simpa using C7_amended ⟨⟨"A", "R"⟩, []⟩ "track" [] "zz" "2" 2 (by decide) (by decide)
    (by decide)

/-- C8: a 204 ("no content") from the provider maps to the not-playing
reply — HTTP 200 with `{playing: false}` — and is not treated as an
error. -/
theorem C8_no_content_not_playing (st : ServerState) (rest : List NetEvent)
    (data : String) (h : st.tokens.accessToken ≠ "") :
    currentHandler st (.fetchOk 204 data :: rest) =
      ⟨.notPlaying, st, rest, 0, [.nowPlaying st.tokens.accessToken]⟩ ∧
    resultHttpStatus .notPlaying = some 200 := by
  refine ⟨?_, rfl⟩
  simp [currentHandler, h, fetchCurrent, fetchCurrentFuel]

/-- C8, witness at a concrete state. -/
theorem C8_witness :
    currentHandler ⟨⟨"A", "R"⟩, []⟩ [.fetchOk 204 ""] =
      ⟨.notPlaying, ⟨⟨"A", "R"⟩, []⟩, [], 0, [.nowPlaying "A"]⟩ ∧
    resultHttpStatus .notPlaying = some 200 := by
  exact C8_no_content_not_playing ⟨⟨"A", "R"⟩, []⟩ [] "" (by decide)

/-- C9: with no stored access token the `/current` handler replies 401
immediately: the state is untouched, no scripted response is consumed and
the request trace is empty. -/
theorem C9_unauthenticated_no_network (st : ServerState) (script : List NetEvent)
    (h : st.tokens.accessToken = "") :
    currentHandler st script = ⟨.noAuth, st, script, 0, []⟩ ∧
    resultHttpStatus .noAuth = some 401 := by
  simp [currentHandler, h, resultHttpStatus]

/-- C9, witness at a concrete state. -/
theorem C9_witness :
    currentHandler ⟨⟨"", "R"⟩, []⟩ [.fetchOk 200 "x"] =
      ⟨.noAuth, ⟨⟨"", "R"⟩, []⟩, [.fetchOk 200 "x"], 0, []⟩ ∧
    resultHttpStatus .noAuth = some 401 := by
  exact C9_unauthenticated_no_network ⟨⟨"", "R"⟩, []⟩ [.fetchOk 200 "x"] rfl

/-- C10: when the refresh request is rejected (network error or non-2xx,
both an axios rejection), `refreshAccessToken` returns the failure with
the in-memory tokens and the write log exactly as they were — no mutation,
no save. -/
theorem C10_refresh_failure_atomic (st : ServerState) (rest : List NetEvent)
    (h : st.tokens.refreshToken ≠ "") :
    refreshAccessToken st (.refreshErr :: rest) =
      (.failed, st, rest, [.tokenRefresh st.tokens.refreshToken]) := by
  simp [refreshAccessToken, h]

/-- C10, witness at a concrete state with a non-empty write log. -/
theorem C10_witness :
    refreshAccessToken ⟨⟨"A", "R"⟩, [⟨some "A", some "R"⟩]⟩ [.refreshErr] =
      (.failed, ⟨⟨"A", "R"⟩, [⟨some "A", some "R"⟩]⟩, [], [.tokenRefresh "R"]) := by
  exact C10_refresh_failure_atomic ⟨⟨"A", "R"⟩, [⟨some "A", some "R"⟩]⟩ [] (by decide)
